import Mathlib

/-!
Verification development for the HypeProof Lab repository.

The repository has two parts:
  (a) a marketing web site (Next.js + framer-motion page components), whose
      page sources appear under `src/web/src/app/columns/[slug]/page.tssx`,
      in the unnamed bundled page file and in `.moai/project/tech.md`;
  (b) a thin Python agent wrapper (types, registry, config loader, error
      handler, command handler) that is documented in
      `docs/ai_agent_system.md` and `.moai/project/*.md` but whose Python
      sources are not part of the provided tree; those parts are modelled
      from the specification and marked as such on each definition.

Part 1 embeds the page components as pure functions producing an element
tree.  Part 2 models the agent execution layer.  All theorems are at the
end of the file.
-/

namespace HypeProof

/-- Attribute values on a rendered element: a string or a number. -/
inductive AVal where
  | s (v : String)
  | n (v : ℚ)

/-- A rendered element tree: an element with tag name, attribute list and
children, or a text node.  JSX elements are translated one-to-one; motion
component props (initial / animate / transition ...) are recorded as
attributes whose string value transliterates the constant object given in
the source, and numeric props that vary (animation delays) are recorded as
numeric attributes. -/
inductive Node where
  | elem (tag : String) (attrs : List (String × AVal)) (children : List Node)
  | text (v : String)

/-- Shorthand for a className attribute. -/
def cls (v : String) : String × AVal := ("className", AVal.s v)

/-- Shorthand for a string-valued attribute. -/
def att (k : String) (v : String) : String × AVal := (k, AVal.s v)

/-- Shorthand for a numeric attribute. -/
def attn (k : String) (v : ℚ) : String × AVal := (k, AVal.n v)

/-- A `<br />` element. -/
def br : Node := .elem "br" [] []

namespace Landing

/-- The render-time environment a page render could in principle observe:
request data and mutable browser state.  The Home page component takes no
props in the source and reads none of this; it is threaded through the
embedding so that independence from it can be stated. -/
structure RenderCtx where
  requestPath : String
  queryString : String
  scrollY : ℚ
  now : ℕ

/-- framer-motion `useScroll` returns a stable MotionValue handle for the
given target/offset; the handle placed in the element tree is described by
its specification and does not depend on the current scroll state. -/
def useScrollProgress (_ctx : RenderCtx) (target : String) (offset : String) : String :=
  "scrollYProgress " ++ target ++ " " ++ offset

/-- framer-motion `useTransform` of a source MotionValue over constant
input/output ranges, again a stable handle described by its specification. -/
def useTransformMV (source : String) (range : String) : String :=
  "useTransform " ++ source ++ " " ++ range

/-- The `fadeInUp` variants constant. -/
def fadeInUp : String :=
  "initial: opacity 1 y 0; animate: opacity 1 y 0; transition: duration 0.8 ease 0.25 0.1 0.25 1"

/-- The `stagger` variants constant. -/
def stagger : String := "animate: transition staggerChildren 0.1"

/-- FloatingOrb component. -/
def FloatingOrb (className : String) (delay : ℚ) : Node :=
  .elem "motion.div"
    [cls ("absolute rounded-full blur-[100px] " ++ className),
     att "initial" "opacity 0, scale 0.8",
     att "animate" "y 0 -50 0, x 0 20 0, scale 1 1.2 1, opacity 0.4 0.7 0.4",
     att "transition" "duration 10, repeat Infinity, ease easeInOut",
     attn "transitionDelay" delay]
    []

/-- Logo component. -/
def Logo : Node :=
  .elem "Link" [att "href" "/"]
    [.elem "motion.div"
      [cls "flex items-center gap-3 cursor-pointer",
       att "initial" "opacity 1", att "animate" "opacity 1", att "transition" "duration 1"]
      [.elem "div"
        [cls "w-8 h-8 rounded-lg bg-gradient-to-br from-purple-500 to-indigo-600 flex items-center justify-center"]
        [.elem "span" [cls "text-white font-bold text-sm"] [.text "H"]],
       .elem "span" [cls "text-white font-semibold text-lg tracking-tight"]
        [.text "HypeProof AI"]]]

/-- NavLink component. -/
def NavLink (child : Node) (href : String) : Node :=
  .elem "motion.a"
    [att "href" href,
     cls "text-zinc-400 hover:text-white transition-colors duration-200 text-sm",
     att "whileHover" "y -1"]
    [child]

/-- The CTA mail icon path in Hero. -/
def heroMailPath : String :=
  "M3 8l7.89 5.26a2 2 0 002.22 0L21 8M5 19h14a2 2 0 002-2V7a2 2 0 00-2-2H5a2 2 0 00-2 2v10a2 2 0 002 2z"

/-- Hero section component. -/
def Hero (ctx : RenderCtx) : Node :=
  let scrollYProgress := useScrollProgress ctx "heroRef" "start start, end start"
  let y := useTransformMV scrollYProgress "0 1 to 0 200"
  let opacity := useTransformMV scrollYProgress "0 0.5 to 1 0"
  .elem "section"
    [att "ref" "heroRef",
     cls "relative min-h-screen flex items-center justify-center overflow-hidden"]
    [FloatingOrb "w-[800px] h-[800px] bg-purple-600/30 -top-60 -left-60" 0,
     FloatingOrb "w-[600px] h-[600px] bg-indigo-600/30 -bottom-40 -right-40" 2,
     FloatingOrb "w-[400px] h-[400px] bg-violet-500/25 top-1/3 left-1/3" 4,
     FloatingOrb "w-[300px] h-[300px] bg-blue-600/20 bottom-1/4 right-1/4" 6,
     .elem "motion.div"
      [cls "relative z-10 text-center px-6 max-w-4xl mx-auto",
       att "style" ("y " ++ y ++ "; opacity " ++ opacity)]
      [.elem "motion.div"
        [att "variants" stagger, att "initial" "initial", att "animate" "animate",
         cls "space-y-8"]
        [.elem "motion.div" [att "variants" fadeInUp]
          [.elem "span" [cls "glass px-4 py-2 text-xs text-zinc-400 uppercase tracking-widest"]
            [.text "Research Lab"]],
         .elem "motion.h1"
          [att "variants" fadeInUp, cls "text-6xl md:text-8xl font-bold tracking-tight"]
          [.elem "span" [cls "text-gradient"] [.text "HypeProof AI"]],
         .elem "motion.p"
          [att "variants" fadeInUp,
           cls "text-xl md:text-2xl text-zinc-500 max-w-2xl mx-auto leading-relaxed"]
          [.text "AI solves problems.", br,
           .elem "span" [cls "text-zinc-300"] [.text "Humans define them."]],
         .elem "motion.div" [att "variants" fadeInUp, cls "pt-8 flex justify-center"]
          [.elem "motion.a"
            [att "href" "mailto:jayleekr0125@gmail.com",
             cls "glass px-8 py-4 text-white font-medium rounded-full border border-purple-500/30 hover:border-purple-500/60 transition-all duration-300 inline-flex items-center gap-2",
             att "whileHover" "scale 1.02, boxShadow 0 0 30px rgba(168, 85, 247, 0.3)",
             att "whileTap" "scale 0.98"]
            [.elem "svg"
              [cls "w-5 h-5", att "fill" "none", att "stroke" "currentColor",
               att "viewBox" "0 0 24 24"]
              [.elem "path"
                [att "strokeLinecap" "round", att "strokeLinejoin" "round",
                 attn "strokeWidth" 2, att "d" heroMailPath] []],
             .text "Contact"]]]],
     .elem "motion.div"
      [cls "absolute bottom-12 left-1/2 -translate-x-1/2",
       att "initial" "opacity 1, y -10", att "animate" "opacity 1, y 0",
       att "transition" "delay 1.5, duration 0.8"]
      [.elem "motion.div"
        [cls "w-6 h-10 rounded-full border border-zinc-700 flex justify-center pt-2",
         att "animate" "opacity 0.5 1 0.5", att "transition" "duration 2, repeat Infinity"]
        [.elem "motion.div"
          [cls "w-1 h-2 bg-zinc-500 rounded-full",
           att "animate" "y 0 12 0",
           att "transition" "duration 1.5, repeat Infinity, ease easeInOut"] []]]]

/-- FeatureCard component. -/
def FeatureCard (icon : String) (title : String) (description : String) (delay : ℚ) : Node :=
  .elem "motion.div"
    [cls "relative glass p-8 group cursor-pointer overflow-hidden",
     att "initial" "opacity 0, y 40", att "whileInView" "opacity 1, y 0",
     att "viewport" "once true, margin -100px",
     att "transition" "duration 0.6, ease 0.25 0.1 0.25 1", attn "transitionDelay" delay,
     att "whileHover" "y -8, duration 0.3"]
    [.elem "motion.div"
      [cls "absolute inset-0 bg-gradient-to-br from-purple-500/0 to-indigo-500/0 opacity-0 group-hover:opacity-100 transition-opacity duration-500",
       att "style" "background radial-gradient(circle at 50% 50%, rgba(168, 85, 247, 0.1), transparent 70%)"] [],
     .elem "motion.div"
      [cls "text-5xl mb-6", att "whileHover" "scale 1.1, rotate 5",
       att "transition" "type spring, stiffness 300"]
      [.text icon],
     .elem "h3"
      [cls "text-xl font-semibold text-white mb-3 group-hover:text-purple-400 transition-colors duration-300"]
      [.text title],
     .elem "p" [cls "text-zinc-400 leading-relaxed"] [.text description],
     .elem "motion.div"
      [cls "absolute bottom-0 left-0 right-0 h-[2px] bg-gradient-to-r from-purple-500 to-indigo-500 scale-x-0 group-hover:scale-x-100 transition-transform duration-500 origin-left"] []]

/-- One entry of the `features` constant. -/
structure Feature where
  icon : String
  title : String
  description : String

/-- The `features` constant in `Features`. -/
def features : List Feature :=
  [⟨"🔬", "Research", "Pushing AI boundaries through daily experiments and rigorous validation"⟩,
   ⟨"🎙️", "Content", "Audio-first content delivering actionable insights"⟩,
   ⟨"📖", "Education", "New paradigms for learning in the age of AI"⟩]

/-- Features section component. -/
def Features : Node :=
  .elem "section" [att "id" "features", cls "py-32 px-6"]
    [.elem "div" [cls "max-w-6xl mx-auto"]
      [.elem "motion.div"
        [cls "text-center mb-16", att "initial" "opacity 1, y 20",
         att "whileInView" "opacity 1, y 0", att "viewport" "once true"]
        [.elem "h2" [cls "text-4xl font-bold text-white mb-4"] [.text "What We Do"],
         .elem "p" [cls "text-zinc-500 max-w-xl mx-auto"]
          [.text "Three tracks to explore the future of AI"]],
       .elem "div" [cls "grid md:grid-cols-3 gap-6"]
        (features.enum.map fun p =>
          FeatureCard p.2.icon p.2.title p.2.description ((p.1 : ℚ) * 0.1))]]

/-- One value of the `categoryStyles` record. -/
structure CategoryStyle where
  gradient : String
  icon : String
  deriving DecidableEq

/-- The `categoryStyles` constant: category name to gradient/icon style. -/
def categoryStyles : List (String × CategoryStyle) :=
  [("Research", ⟨"from-purple-600/50 to-indigo-900/50", "🔬"⟩),
   ("Analysis", ⟨"from-blue-600/50 to-cyan-900/50", "📊"⟩),
   ("Education", ⟨"from-emerald-600/50 to-teal-900/50", "📚"⟩),
   ("Opinion", ⟨"from-orange-600/50 to-red-900/50", "💭"⟩)]

/-- JavaScript object indexing: defined value or undefined. -/
def jsIndex {α : Type} (m : List (String × α)) (k : String) : Option α :=
  m.lookup k

/-- The style lookup in ColumnCard:
`categoryStyles[column.category] || categoryStyles["Research"]`.
An object value is truthy, so the fallback is taken exactly when the first
index is undefined. -/
def columnStyle (category : String) : Option CategoryStyle :=
  (jsIndex categoryStyles category).orElse fun _ => jsIndex categoryStyles "Research"

/-- One entry of the `columns` constant. -/
structure Column where
  slug : String
  title : String
  excerpt : String
  date : String
  category : String

/-- The `columns` sample-data constant. -/
def columns : List Column :=
  [⟨"claude-opus-4-6-alignment",
    "Claude Opus 4.6: When Safety Meets Soul",
    "Anthropic\x27s latest release isn\x27t just an upgrade—it\x27s a philosophical statement about where AI alignment is heading.",
    "2026-02-06", "Research"⟩,
   ⟨"openai-agents-sdk",
    "The Rise of Agent Frameworks",
    "From OpenAI Swarm to Claude Code SDK, the agent wars are heating up. Here\x27s what it means for developers.",
    "2026-02-05", "Analysis"⟩,
   ⟨"ai-education-paradigm",
    "Teaching AI to Kids: A New Curriculum",
    "We designed an AI education program for middle schoolers. The results surprised even us.",
    "2026-02-03", "Education"⟩]

/-- The chevron path used in ColumnCard and Columns. -/
def chevronPath : String := "M9 5l7 7-7 7"

/-- ColumnCard component.  The JS property accesses `style.gradient` and
`style.icon` are on the result of the fallback expression; a missing style
would render the string undefined, modelled by the sentinel default. -/
def ColumnCard (column : Column) (delay : ℚ) : Node :=
  let style := (columnStyle column.category).getD ⟨"undefined", "undefined"⟩
  .elem "motion.article"
    [cls "group cursor-pointer", att "initial" "opacity 0, y 30",
     att "whileInView" "opacity 1, y 0", att "viewport" "once true, margin -50px",
     att "transition" "duration 0.6", attn "transitionDelay" delay]
    [.elem "Link" [att "href" ("/columns/" ++ column.slug)]
      [.elem "div"
        [cls "flex flex-col md:flex-row gap-6 p-6 glass rounded-2xl hover:border-purple-500/30 transition-all duration-300"]
        [.elem "div"
          [cls ("w-full md:w-64 h-40 bg-gradient-to-br " ++ style.gradient ++ " rounded-xl flex items-center justify-center overflow-hidden flex-shrink-0 group-hover:scale-[1.02] transition-transform duration-300")]
          [.elem "span"
            [cls "text-5xl opacity-60 group-hover:scale-110 transition-transform duration-300"]
            [.text style.icon]],
         .elem "div" [cls "flex flex-col justify-center flex-1"]
          [.elem "div" [cls "flex items-center gap-3 mb-3"]
            [.elem "span" [cls "text-xs text-purple-400 uppercase tracking-wider font-medium"]
              [.text column.category],
             .elem "span" [cls "text-zinc-600"] [.text "•"],
             .elem "span" [cls "text-xs text-zinc-500"] [.text column.date]],
           .elem "h3"
            [cls "text-xl font-semibold text-white mb-2 group-hover:text-purple-400 transition-colors"]
            [.text column.title],
           .elem "p" [cls "text-zinc-400 text-sm leading-relaxed"] [.text column.excerpt],
           .elem "div"
            [cls "mt-4 flex items-center text-purple-400 text-sm font-medium opacity-0 group-hover:opacity-100 transition-opacity"]
            [.text "Read more",
             .elem "svg"
              [cls "w-4 h-4 ml-1 group-hover:translate-x-1 transition-transform",
               att "fill" "none", att "stroke" "currentColor", att "viewBox" "0 0 24 24"]
              [.elem "path"
                [att "strokeLinecap" "round", att "strokeLinejoin" "round",
                 attn "strokeWidth" 2, att "d" chevronPath] []]]]]]]

/-- Columns section component. -/
def Columns : Node :=
  .elem "section" [att "id" "columns", cls "py-32 px-6"]
    [.elem "div" [cls "max-w-4xl mx-auto"]
      [.elem "motion.div"
        [cls "flex items-center justify-between mb-12", att "initial" "opacity 0, y 20",
         att "whileInView" "opacity 1, y 0", att "viewport" "once true"]
        [.elem "div" []
          [.elem "h2" [cls "text-4xl font-bold text-white mb-2"] [.text "Columns"],
           .elem "p" [cls "text-zinc-500"] [.text "Sharp takes on AI, tech, and the future"]],
         .elem "Link"
          [att "href" "/columns",
           cls "text-purple-400 hover:text-purple-300 text-sm font-medium flex items-center gap-1 transition-colors"]
          [.text "View all",
           .elem "svg"
            [cls "w-4 h-4", att "fill" "none", att "stroke" "currentColor",
             att "viewBox" "0 0 24 24"]
            [.elem "path"
              [att "strokeLinecap" "round", att "strokeLinejoin" "round",
               attn "strokeWidth" 2, att "d" chevronPath] []]]],
       .elem "div" [cls "space-y-6"]
        (columns.enum.map fun p => ColumnCard p.2 ((p.1 : ℚ) * 0.1))]]

/-- The `memberColors` constant: member name to avatar gradient. -/
def memberColors : List (String × String) :=
  [("Jay", "from-purple-500 to-indigo-600"),
   ("Ryan", "from-blue-500 to-cyan-500"),
   ("JY", "from-emerald-500 to-teal-500"),
   ("TJ", "from-orange-500 to-red-500"),
   ("Kiwon", "from-pink-500 to-rose-500")]

/-- The fallback gradient in TeamMember. -/
def defaultGradient : String := "from-purple-500/20 to-indigo-500/20"

/-- JavaScript `a || b` for a possibly-undefined string `a` and a string
`b`: the empty string is falsy, undefined is falsy. -/
def jsOrString (v : Option String) (fallback : String) : String :=
  match v with
  | some s => if s = "" then fallback else s
  | none => fallback

/-- The gradient lookup in TeamMember:
`memberColors[name] || "from-purple-500/20 to-indigo-500/20"`. -/
def memberGradient (name : String) : String :=
  jsOrString (jsIndex memberColors name) defaultGradient

/-- JavaScript string indexing `s[i]`: a character, or undefined past the
end.  The names indexed here are ASCII, so code-unit indexing agrees with
character indexing. -/
def jsCharAt (s : String) (i : ℕ) : Option Char :=
  s.data.get? i

/-- The avatar initial rendered by TeamMember: `name[0]` interpolated into
the JSX text position (undefined renders as no text). -/
def avatarInitialText (name : String) : String :=
  match jsCharAt name 0 with
  | some c => String.singleton c
  | none => ""

/-- TeamMember component. -/
def TeamMember (name : String) (role : String) (credential : Option String) (delay : ℚ) : Node :=
  let gradient := memberGradient name
  .elem "motion.div"
    [cls "text-center group", att "initial" "opacity 0, scale 0.9, y 20",
     att "whileInView" "opacity 1, scale 1, y 0", att "viewport" "once true, margin -50px",
     att "transition" "duration 0.6, ease 0.25 0.1 0.25 1", attn "transitionDelay" delay]
    ([.elem "motion.div"
       [cls ("w-24 h-24 mx-auto mb-4 rounded-full bg-gradient-to-br " ++ gradient ++ " p-[2px] cursor-pointer"),
        att "whileHover" "scale 1.1, rotate 5", att "whileTap" "scale 0.95"]
       [.elem "div" [cls "w-full h-full rounded-full bg-zinc-950 flex items-center justify-center"]
         [.elem "span" [cls "text-2xl font-bold text-white"] [.text (avatarInitialText name)]]],
      .elem "motion.h4" [cls "text-white font-semibold text-lg", att "whileHover" "color #a855f7"]
       [.text name],
      .elem "p" [cls "text-zinc-400 text-sm mt-1"] [.text role]] ++
     (match credential with
      | some c =>
        [.elem "p" [cls "text-zinc-600 text-xs mt-1 max-w-[180px] mx-auto leading-relaxed"]
          [.text c]]
      | none => []))

/-- Philosophy section component. -/
def Philosophy : Node :=
  .elem "section" [cls "py-32 px-6 relative overflow-hidden"]
    [FloatingOrb "w-[500px] h-[500px] bg-indigo-600/20 -left-40 top-0" 1,
     .elem "div" [cls "max-w-4xl mx-auto relative z-10"]
      [.elem "motion.div"
        [cls "text-center", att "initial" "opacity 0", att "whileInView" "opacity 1",
         att "viewport" "once true", att "transition" "duration 1"]
        [.elem "motion.p"
          [cls "text-2xl md:text-3xl text-zinc-300 leading-relaxed font-light",
           att "initial" "opacity 0, y 30", att "whileInView" "opacity 1, y 0",
           att "viewport" "once true", att "transition" "duration 0.8"]
          [.text "&ldquo;We don&apos;t chase ",
           .elem "span" [cls "text-white font-medium"] [.text "Hype"],
           .text ".", br,
           .text "We ",
           .elem "span" [cls "text-purple-400 font-medium"] [.text "prove"],
           .text " it.&rdquo;"],
         .elem "motion.div"
          [cls "mt-12 h-px w-24 mx-auto bg-gradient-to-r from-transparent via-purple-500 to-transparent",
           att "initial" "scaleX 0", att "whileInView" "scaleX 1",
           att "viewport" "once true", att "transition" "duration 1, delay 0.5"] []]]]

/-- One entry of the `members` constant in Team. -/
structure Member where
  name : String
  role : String
  credential : Option String
  deriving DecidableEq

/-- The `members` constant in Team (identical in the bundled page file and
in the tech.md page source). -/
def teamMembers : List Member :=
  [⟨"Jay", "Lead / Tech", some "Staff Engineer @ Silicon Valley"⟩,
   ⟨"Ryan", "Research / Data", some "Physics PhD, Quant Dev"⟩,
   ⟨"JY", "Research / AI", some "AI Engineer, M.S. Physics"⟩,
   ⟨"TJ", "Content / Media", some "Ex-Founder, Media Specialist"⟩,
   ⟨"Kiwon", "Marketing", some "GWU, Global Marketing"⟩]

/-- Team section component. -/
def Team : Node :=
  .elem "section" [att "id" "team", cls "py-32 px-6"]
    [.elem "div" [cls "max-w-4xl mx-auto"]
      [.elem "motion.div"
        [cls "text-center mb-16", att "initial" "opacity 1, y 20",
         att "whileInView" "opacity 1, y 0", att "viewport" "once true"]
        [.elem "h2" [cls "text-4xl font-bold text-white mb-4"] [.text "The Team"]],
       .elem "div" [cls "grid grid-cols-2 md:grid-cols-5 gap-8 md:gap-6"]
        (teamMembers.enum.map fun p =>
          TeamMember p.2.name p.2.role p.2.credential ((p.1 : ℚ) * 0.1))]]

/-- Footer component. -/
def Footer : Node :=
  .elem "footer" [cls "py-12 px-6 border-t border-white/5"]
    [.elem "div" [cls "max-w-6xl mx-auto flex flex-col md:flex-row items-center justify-between gap-4"]
      [Logo,
       .elem "div" [cls "flex items-center gap-6"]
        [.elem "Link" [att "href" "/columns", cls "text-zinc-500 hover:text-white text-sm transition-colors"]
          [.text "Columns"],
         .elem "Link" [att "href" "#team", cls "text-zinc-500 hover:text-white text-sm transition-colors"]
          [.text "Team"]],
       .elem "p" [cls "text-zinc-600 text-sm"]
        [.text "© 2026 HypeProof AI. All rights reserved."]]]

/-- Home page component.  The source component takes no props; the context
argument stands for the render environment it could in principle observe. -/
def Home (ctx : RenderCtx) : Node :=
  .elem "fragment" []
    [.elem "div" [cls "gradient-bg"] [],
     .elem "div" [cls "grid-pattern"] [],
     .elem "div" [cls "noise"] [],
     .elem "motion.nav"
      [cls "fixed top-0 left-0 right-0 z-50 px-6 py-4 bg-zinc-950/50 backdrop-blur-lg border-b border-white/5",
       att "initial" "opacity 0, y -20", att "animate" "opacity 1, y 0",
       att "transition" "duration 0.8, delay 0.2"]
      [.elem "div" [cls "max-w-6xl mx-auto flex items-center justify-between"]
        [Logo,
         .elem "div" [cls "hidden md:flex items-center gap-8"]
          [NavLink (.text "What We Do") "#features",
           NavLink (.text "Columns") "#columns",
           NavLink (.text "Team") "#team"]]],
     .elem "main" []
      [Hero ctx, Features, Columns, Philosophy, Team],
     Footer]

end Landing

namespace ColumnRoute

/-- The dynamic route parameters Next.js provides to the page at
`/columns/[slug]`; the page component in the source declares no props and
so never reads the slug. -/
structure RouteParams where
  slug : String

/-- The back-arrow path in ColumnPage. -/
def backArrowPath : String := "M10 19l-7-7m0 0l7-7m-7 7h18"

/-- ColumnPage component from `src/web/src/app/columns/[slug]/page.tsx`. -/
def ColumnPage (_params : RouteParams) : Node :=
  .elem "fragment" []
    [.elem "div" [cls "gradient-bg"] [],
     .elem "div" [cls "grid-pattern"] [],
     .elem "div" [cls "noise"] [],
     .elem "div" [cls "min-h-screen flex items-center justify-center px-6"]
      [.elem "motion.div"
        [cls "text-center max-w-2xl", att "initial" "opacity 0, y 20",
         att "animate" "opacity 1, y 0", att "transition" "duration 0.8"]
        [.elem "motion.div"
          [cls "text-8xl mb-8", att "initial" "scale 0.8", att "animate" "scale 1",
           att "transition" "duration 0.5, delay 0.2"]
          [.text "📝"],
         .elem "h1" [cls "text-4xl md:text-5xl font-bold text-white mb-4"]
          [.text "Coming Soon"],
         .elem "p" [cls "text-xl text-zinc-400 mb-8"]
          [.text "This article is currently being crafted.", br,
           .text "Check back soon for insights and analysis!"],
         .elem "motion.div"
          [att "initial" "opacity 0", att "animate" "opacity 1", att "transition" "delay 0.5"]
          [.elem "Link"
            [att "href" "/",
             cls "glass px-6 py-3 text-white font-medium rounded-full border border-purple-500/30 hover:border-purple-500/60 transition-all duration-300 inline-flex items-center gap-2"]
            [.elem "svg"
              [cls "w-4 h-4", att "fill" "none", att "stroke" "currentColor",
               att "viewBox" "0 0 24 24"]
              [.elem "path"
                [att "strokeLinecap" "round", att "strokeLinejoin" "round",
                 attn "strokeWidth" 2, att "d" backArrowPath] []],
             .text "Back to Home"]]]]]

end ColumnRoute

namespace Agents

/-- Modelled from the spec: the execution status enumeration
(SUCCESS, ERROR, TIMEOUT) of the missing `src/core/types.py`. -/
inductive ExecutionStatus where
  | success
  | error
  | timeout
  deriving DecidableEq

/-- Modelled from the spec: the token usage record of the missing
`src/core/types.py`. -/
structure TokenUsage where
  input_tokens : ℕ
  output_tokens : ℕ
  total_tokens : ℕ
  deriving DecidableEq

/-- Modelled from the spec: the result record of the missing
`src/core/types.py` — status, output text, token counts, elapsed time,
error message. -/
structure AgentResult where
  status : ExecutionStatus
  output : String
  token_usage : TokenUsage
  execution_time : ℕ
  error_message : Option String
  deriving DecidableEq

/-- Modelled from the spec: the exception hierarchy of the missing
`src/core/error_handler.py` — configuration errors, execution errors and
timeout errors under a common root. -/
inductive HypeProofError where
  | configurationError (msg : String)
  | executionError (msg : String)
  | timeoutError (msg : String)
  deriving DecidableEq

/-- The three failure kinds the hierarchy distinguishes. -/
inductive ErrorKind where
  | configuration
  | execution
  | timedOut
  deriving DecidableEq

/-- Classification of a failure by its exception type. -/
def HypeProofError.kind : HypeProofError → ErrorKind
  | .configurationError _ => .configuration
  | .executionError _ => .execution
  | .timeoutError _ => .timedOut

/-- Modelled from the spec: the structured error text surfaced on the
result record, prefixed by the exception class name. -/
def HypeProofError.structuredMessage : HypeProofError → String
  | .configurationError m => "ConfigurationError: " ++ m
  | .executionError m => "AgentExecutionError: " ++ m
  | .timeoutError m => "TimeoutError: " ++ m

/-- The execution status a failure maps to. -/
def HypeProofError.toStatus : HypeProofError → ExecutionStatus
  | .timeoutError _ => .timeout
  | _ => .error

/-- Modelled from the spec: retryable-error determination of the missing
`src/core/error_handler.py`; configuration errors are not retryable. -/
def HypeProofError.retryable : HypeProofError → Bool
  | .configurationError _ => false
  | _ => true

/-- Modelled from the spec: the typed agent configuration record of the
missing `src/core/types.py`, loaded from agents.yaml — agent name, prompt
role, allowed tool names, retry count, timeout, model identifier. -/
structure AgentConfig where
  name : String
  role : String
  tools : List String
  max_retries : ℕ
  timeout : ℕ
  model : String
  deriving DecidableEq

/-- A flat YAML scalar, sequence-of-strings or number, enough for the flat
key/value agent configuration maps. -/
inductive YamlValue where
  | str (v : String)
  | num (v : ℕ)
  | seq (vs : List String)
  deriving DecidableEq

/-- A flat YAML mapping. -/
abbrev YamlDoc := List (String × YamlValue)

/-- The field names the agent configuration schema knows. -/
def knownAgentKeys : List String :=
  ["name", "role", "tools", "max_retries", "timeout", "model"]

/-- String field extraction with a configuration error on absence or type
mismatch. -/
def getStr (y : YamlDoc) (k : String) : Except String String :=
  match y.lookup k with
  | some (.str v) => .ok v
  | _ => .error ("ConfigurationError: missing or ill-typed field " ++ k)

/-- Numeric field extraction. -/
def getNum (y : YamlDoc) (k : String) : Except String ℕ :=
  match y.lookup k with
  | some (.num v) => .ok v
  | _ => .error ("ConfigurationError: missing or ill-typed field " ++ k)

/-- Sequence field extraction. -/
def getSeq (y : YamlDoc) (k : String) : Except String (List String) :=
  match y.lookup k with
  | some (.seq v) => .ok v
  | _ => .error ("ConfigurationError: missing or ill-typed field " ++ k)

/-- Whether the document carries a field unknown to the schema. -/
def hasUnknownKey (y : YamlDoc) : Bool :=
  y.any fun kv => !(decide (kv.1 ∈ knownAgentKeys))

/-- Modelled from the spec: the YAML agent-configuration loader of the
missing `src/core/config_loader.py` — parses and validates an agents.yaml
entry into the typed record, rejecting unknown fields with a configuration
error. -/
def load_agent_config (y : YamlDoc) : Except String AgentConfig :=
  if hasUnknownKey y then
    .error "ConfigurationError: unknown field in agent configuration"
  else do
    let name ← getStr y "name"
    let role ← getStr y "role"
    let tools ← getSeq y "tools"
    let retries ← getNum y "max_retries"
    let tmo ← getNum y "timeout"
    let model ← getStr y "model"
    .ok ⟨name, role, tools, retries, tmo, model⟩

/-- Serialisation of a configuration record back to its flat YAML form. -/
def AgentConfig.toYaml (c : AgentConfig) : YamlDoc :=
  [("name", .str c.name), ("role", .str c.role), ("tools", .seq c.tools),
   ("max_retries", .num c.max_retries), ("timeout", .num c.timeout),
   ("model", .str c.model)]

/-- Modelled from the spec: the registry of the missing
`src/core/registry.py` — a key-value map of created agent instances
(identified here by numeric ids) plus a source of fresh ids. -/
structure Registry where
  instances : List (String × ℕ)
  next_id : ℕ
  deriving DecidableEq

/-- The empty registry. -/
def Registry.empty : Registry := ⟨[], 0⟩

/-- Modelled from the spec: singleton-pattern lookup of the missing
`src/core/registry.py` — return the instance registered under the name,
creating and registering a fresh one on first use. -/
def Registry.get_agent (r : Registry) (name : String) : ℕ × Registry :=
  match r.instances.lookup name with
  | some inst => (inst, r)
  | none => (r.next_id, ⟨(name, r.next_id) :: r.instances, r.next_id + 1⟩)

/-- Modelled from the spec: the outcome of one request to the external
hosted SDK — a reply with token usage and elapsed time, or a failure. -/
inductive SDKOutcome where
  | ok (output : String) (usage : TokenUsage) (elapsed : ℕ)
  | failed (e : HypeProofError) (elapsed : ℕ)
  deriving DecidableEq

/-- Log entry for one attempt: the timeout it ran under, the backoff
waited before it, and the number of SDK requests it issued. -/
structure Attempt where
  timeout_s : ℕ
  backoff_s : ℕ
  sdk_calls : ℕ
  deriving DecidableEq

/-- The result record of a successful reply. -/
def successResult (out : String) (usage : TokenUsage) (elapsed : ℕ) : AgentResult :=
  ⟨.success, out, usage, elapsed, none⟩

/-- The result record a failure is surfaced as: error/timeout status and
the structured error text, never an unhandled exception. -/
def failureResult (e : HypeProofError) (elapsed : ℕ) : AgentResult :=
  ⟨e.toStatus, "", ⟨0, 0, 0⟩, elapsed, some e.structuredMessage⟩

/-- Modelled from the spec: the retry loop of the missing
`src/agents/base_agent.py` — one request/await per attempt, each under the
configured fixed timeout, no backoff between attempts, at most the
configured retry count of attempts; `sdk i` is the outcome of the i-th
request. -/
def execute_attempts (cfg : AgentConfig) (sdk : ℕ → SDKOutcome) :
    ℕ → ℕ → List Attempt × AgentResult
  | 0, _ => ([], failureResult (.executionError "max retries exceeded") 0)
  | fuel + 1, i =>
    let a : Attempt := ⟨cfg.timeout, 0, 1⟩
    match sdk i with
    | .ok out usage elapsed => ([a], successResult out usage elapsed)
    | .failed e elapsed =>
      if e.retryable = true ∧ fuel ≠ 0 then
        let rest := execute_attempts cfg sdk fuel (i + 1)
        (a :: rest.1, rest.2)
      else ([a], failureResult e elapsed)

/-- Modelled from the spec: `BaseAgent.execute` of the missing
`src/agents/base_agent.py`, returning the attempt log and the result
record. -/
def BaseAgent.execute (cfg : AgentConfig) (sdk : ℕ → SDKOutcome) :
    List Attempt × AgentResult :=
  execute_attempts cfg sdk cfg.max_retries 0

/-- The consistency invariant between a result record status and its
error message: success carries none, error/timeout carries a non-empty
one. -/
def statusConsistent (r : AgentResult) : Prop :=
  (r.status = .success ↔ r.error_message = none) ∧
  ((r.status = .error ∨ r.status = .timeout) ↔
    ∃ m, r.error_message = some m ∧ m ≠ "")

/-- Modelled from the spec: the status/result/execution-time summary the
/research command prints. -/
structure ResearchSummary where
  status : ExecutionStatus
  result : String
  execution_time : ℕ
  deriving DecidableEq

/-- Modelled from the spec: the /research command handler of the missing
`src/commands/research.py` — forwards the free-text topic to the agent
wrapper (the SDK behaviour is a function of the prompt it is sent) and
summarises the status, the result text and the execution time. -/
def ResearchCommand.handle (cfg : AgentConfig) (sdk : String → ℕ → SDKOutcome)
    (topic : String) : ResearchSummary :=
  let r := (BaseAgent.execute cfg (sdk topic)).2
  ⟨r.status, r.output, r.execution_time⟩

end Agents

/-! ## Theorems -/

/-- A string with a non-empty left part stays non-empty under append. -/
theorem append_ne_empty (a b : String) (h : a.length ≠ 0) : a ++ b ≠ "" := by
  intro hab
  have hl := congrArg String.length hab
  rw [String.length_append, show "".length = 0 from rfl] at hl
  omega

/-- The structured error text is never empty: it starts with the exception
class name. -/
theorem structuredMessage_ne_empty (e : Agents.HypeProofError) :
    e.structuredMessage ≠ "" := by
  cases e <;> exact append_ne_empty _ _ (by decide)

/-- A failure result record satisfies the status/error-message consistency
invariant. -/
theorem statusConsistent_failureResult (e : Agents.HypeProofError) (t : ℕ) :
    Agents.statusConsistent (Agents.failureResult e t) := by
  cases e with
  | configurationError m =>
    exact ⟨⟨fun h => (nomatch h), fun h => (nomatch h)⟩,
           ⟨fun _ => ⟨_, rfl, structuredMessage_ne_empty _⟩, fun _ => Or.inl rfl⟩⟩
  | executionError m =>
    exact ⟨⟨fun h => (nomatch h), fun h => (nomatch h)⟩,
           ⟨fun _ => ⟨_, rfl, structuredMessage_ne_empty _⟩, fun _ => Or.inl rfl⟩⟩
  | timeoutError m =>
    exact ⟨⟨fun h => (nomatch h), fun h => (nomatch h)⟩,
           ⟨fun _ => ⟨_, rfl, structuredMessage_ne_empty _⟩, fun _ => Or.inr rfl⟩⟩

/-- A success result record satisfies the status/error-message consistency
invariant. -/
theorem statusConsistent_successResult (out : String) (usage : Agents.TokenUsage)
    (elapsed : ℕ) : Agents.statusConsistent (Agents.successResult out usage elapsed) := by
  refine ⟨⟨fun _ => rfl, fun _ => rfl⟩, ⟨?_, ?_⟩⟩
  · rintro (h | h) <;> exact nomatch h
  · rintro ⟨m, hm, -⟩
    exact nomatch hm

/-- Every result the retry loop can return satisfies the consistency
invariant, whatever the SDK outcomes. -/
theorem execute_attempts_statusConsistent (cfg : Agents.AgentConfig)
    (sdk : ℕ → Agents.SDKOutcome) :
    ∀ fuel i, Agents.statusConsistent (Agents.execute_attempts cfg sdk fuel i).2 := by
  intro fuel
  induction fuel with
  | zero =>
    intro i
    exact statusConsistent_failureResult _ _
  | succ n ih =>
    intro i
    show Agents.statusConsistent (Agents.execute_attempts cfg sdk (n + 1) i).2
    rw [Agents.execute_attempts]
    cases hs : sdk i with
    | ok out usage elapsed => exact statusConsistent_successResult _ _ _
    | failed e elapsed =>
      by_cases hr : e.retryable = true ∧ n ≠ 0
      · simp only [if_pos hr]
        exact ih (i + 1)
      · simp only [if_neg hr]
        exact statusConsistent_failureResult _ _

/-- Claim C1: for every execution of an agent, the result record status is
consistent with the presence of an error message — the status is success
exactly when no error message is carried, and error or timeout exactly
when a non-empty error message is carried. -/
theorem execute_status_error_consistent (cfg : Agents.AgentConfig)
    (sdk : ℕ → Agents.SDKOutcome) :
    Agents.statusConsistent (Agents.BaseAgent.execute cfg sdk).2 :=
  execute_attempts_statusConsistent cfg sdk cfg.max_retries 0

/-- Witness for C1 at a concrete configuration and SDK behaviour. -/
theorem execute_status_error_consistent_witness :
    Agents.statusConsistent
      (Agents.BaseAgent.execute ⟨"Research Agent", "Web search", ["Read"], 3, 300, "m1"⟩
        (fun _ => .ok "findings" ⟨10, 20, 30⟩ 5)).2 :=
  execute_status_error_consistent ⟨"Research Agent", "Web search", ["Read"], 3, 300, "m1"⟩
    (fun _ => .ok "findings" ⟨10, 20, 30⟩ 5)

/-- Claim C2: registry lookup is idempotent in the instance it yields — a
second lookup of the same name returns the same instance and leaves the
registry unchanged (singleton semantics). -/
theorem registry_get_agent_singleton (r : Agents.Registry) (name : String) :
    ((r.get_agent name).2.get_agent name).1 = (r.get_agent name).1 ∧
    ((r.get_agent name).2.get_agent name).2 = (r.get_agent name).2 := by
  unfold Agents.Registry.get_agent
  cases h : r.instances.lookup name with
  | some inst => simp [h]
  | none => simp [h, List.lookup]

/-- Witness for C2 at the empty registry and a concrete agent name. -/
theorem registry_get_agent_singleton_witness :
    ((Agents.Registry.empty.get_agent "research_agent").2.get_agent "research_agent").1 =
      (Agents.Registry.empty.get_agent "research_agent").1 ∧
    ((Agents.Registry.empty.get_agent "research_agent").2.get_agent "research_agent").2 =
      (Agents.Registry.empty.get_agent "research_agent").2 :=
  registry_get_agent_singleton Agents.Registry.empty "research_agent"

/-- Claim C3: configuration loading round-trips — the loader maps the
flat YAML form of any configuration record back to that record, and any
document carrying a field unknown to the schema is rejected with a
configuration error. -/
theorem load_agent_config_round_trip :
    (∀ c : Agents.AgentConfig, Agents.load_agent_config c.toYaml = .ok c) ∧
    (∀ y : Agents.YamlDoc, (∃ kv ∈ y, kv.1 ∉ Agents.knownAgentKeys) →
      Agents.load_agent_config y =
        .error "ConfigurationError: unknown field in agent configuration") := by
  constructor
  · intro c
    rfl
  · rintro y ⟨kv, hmem, hunk⟩
    have hk : Agents.hasUnknownKey y = true := by
      rw [Agents.hasUnknownKey, List.any_eq_true]
      exact ⟨kv, hmem, by simpa using hunk⟩
    rw [Agents.load_agent_config, if_pos hk]

/-- Witness for C3: the documented research-agent configuration
round-trips, and a document with an unknown field is rejected. -/
theorem load_agent_config_round_trip_witness :
    Agents.load_agent_config
      (Agents.AgentConfig.toYaml
        ⟨"Research Agent", "Web search and information gathering",
         ["Read", "WebSearch", "WebFetch"], 3, 300, "claude-sonnet-4-20250514"⟩) =
      .ok ⟨"Research Agent", "Web search and information gathering",
           ["Read", "WebSearch", "WebFetch"], 3, 300, "claude-sonnet-4-20250514"⟩ ∧
    Agents.load_agent_config [("name", .str "X"), ("temperature", .num 1)] =
      .error "ConfigurationError: unknown field in agent configuration" :=
  ⟨load_agent_config_round_trip.1 _,
   load_agent_config_round_trip.2 [("name", .str "X"), ("temperature", .num 1)]
     ⟨("temperature", .num 1), by decide, by decide⟩⟩

/-- Claim C4: every failure is classified by the exception hierarchy into
exactly one of the three kinds (configuration, execution, timeout), and is
surfaced as a structured non-empty error field on a returned result record
with a non-success status, not as an unhandled exception. -/
theorem error_hierarchy_classification (e : Agents.HypeProofError) :
    (e.kind = .configuration ∨ e.kind = .execution ∨ e.kind = .timedOut) ∧
    (∀ k1 k2 : Agents.ErrorKind, e.kind = k1 → e.kind = k2 → k1 = k2) ∧
    (∀ t : ℕ, (Agents.failureResult e t).error_message = some e.structuredMessage ∧
      e.structuredMessage ≠ "" ∧ (Agents.failureResult e t).status ≠ .success) := by
  cases e with
  | configurationError m =>
    exact ⟨Or.inl rfl, fun _ _ h1 h2 => h1.symm.trans h2,
           fun t => ⟨rfl, structuredMessage_ne_empty _, fun h => nomatch h⟩⟩
  | executionError m =>
    exact ⟨Or.inr (Or.inl rfl), fun _ _ h1 h2 => h1.symm.trans h2,
           fun t => ⟨rfl, structuredMessage_ne_empty _, fun h => nomatch h⟩⟩
  | timeoutError m =>
    exact ⟨Or.inr (Or.inr rfl), fun _ _ h1 h2 => h1.symm.trans h2,
           fun t => ⟨rfl, structuredMessage_ne_empty _, fun h => nomatch h⟩⟩

/-- Witness for C4 at a concrete timeout failure. -/
theorem error_hierarchy_classification_witness :
    Agents.ErrorKind.timedOut = Agents.ErrorKind.timedOut ∧
    (Agents.failureResult (.timeoutError "agent timed out") 300).error_message =
      some ((Agents.HypeProofError.timeoutError "agent timed out").structuredMessage) :=
  ⟨(error_hierarchy_classification (.timeoutError "agent timed out")).2.1 _ _ rfl rfl,
   ((error_hierarchy_classification (.timeoutError "agent timed out")).2.2 300).1⟩

/-- The retry loop issues at most `fuel` attempts, each a single SDK call
under the configured timeout with no backoff. -/
theorem execute_attempts_bounded (cfg : Agents.AgentConfig)
    (sdk : ℕ → Agents.SDKOutcome) :
    ∀ fuel i, (Agents.execute_attempts cfg sdk fuel i).1.length ≤ fuel ∧
      ∀ a ∈ (Agents.execute_attempts cfg sdk fuel i).1,
        a.timeout_s = cfg.timeout ∧ a.backoff_s = 0 ∧ a.sdk_calls = 1 := by
  intro fuel
  induction fuel with
  | zero =>
    intro i
    exact ⟨Nat.le_refl 0, by intro a ha; exact absurd ha (List.not_mem_nil a)⟩
  | succ n ih =>
    intro i
    rw [Agents.execute_attempts]
    cases hs : sdk i with
    | ok out usage elapsed =>
      refine ⟨by simp, ?_⟩
      intro a ha
      rw [List.mem_singleton] at ha
      subst ha
      exact ⟨rfl, rfl, rfl⟩
    | failed e elapsed =>
      by_cases hr : e.retryable = true ∧ n ≠ 0
      · simp only [if_pos hr]
        refine ⟨by simpa using (ih (i + 1)).1, ?_⟩
        intro a ha
        rw [List.mem_cons] at ha
        rcases ha with ha | ha
        · subst ha
          exact ⟨rfl, rfl, rfl⟩
        · exact (ih (i + 1)).2 a ha
      · simp only [if_neg hr]
        refine ⟨by simp, ?_⟩
        intro a ha
        rw [List.mem_singleton] at ha
        subst ha
        exact ⟨rfl, rfl, rfl⟩

/-- Claim C5: execution performs one SDK request per attempt, at most the
configured retry count of attempts, each under the configured fixed
timeout and with no backoff before it; the attempt log is a finite list,
so execution terminates after finitely many attempts. -/
theorem execute_bounded_retries_no_backoff (cfg : Agents.AgentConfig)
    (sdk : ℕ → Agents.SDKOutcome) :
    (Agents.BaseAgent.execute cfg sdk).1.length ≤ cfg.max_retries ∧
    ∀ a ∈ (Agents.BaseAgent.execute cfg sdk).1,
      a.timeout_s = cfg.timeout ∧ a.backoff_s = 0 ∧ a.sdk_calls = 1 :=
  execute_attempts_bounded cfg sdk cfg.max_retries 0

/-- Witness for C5: an SDK that always fails exhausts exactly the retry
budget of a concrete configuration. -/
theorem execute_bounded_retries_no_backoff_witness :
    (Agents.BaseAgent.execute ⟨"Research Agent", "Web search", ["Read"], 3, 300, "m1"⟩
      (fun _ => .failed (.executionError "boom") 1)).1.length ≤ 3 ∧
    (⟨300, 0, 1⟩ : Agents.Attempt).timeout_s = 300 ∧
    (⟨300, 0, 1⟩ : Agents.Attempt).backoff_s = 0 ∧
    (⟨300, 0, 1⟩ : Agents.Attempt).sdk_calls = 1 :=
  ⟨(execute_bounded_retries_no_backoff ⟨"Research Agent", "Web search", ["Read"], 3, 300, "m1"⟩
      (fun _ => .failed (.executionError "boom") 1)).1,
   (execute_bounded_retries_no_backoff ⟨"Research Agent", "Web search", ["Read"], 3, 300, "m1"⟩
      (fun _ => .failed (.executionError "boom") 1)).2 ⟨300, 0, 1⟩ (by decide)⟩

/-- Claim C6: the /research command handler forwards the topic to the
agent wrapper (the SDK behaviour is evaluated at the topic) and its
summary consists exactly of the status, the result text and the execution
time of the run. -/
theorem research_command_summary (cfg : Agents.AgentConfig)
    (sdk : String → ℕ → Agents.SDKOutcome) (topic : String) :
    Agents.ResearchCommand.handle cfg sdk topic =
      ⟨(Agents.BaseAgent.execute cfg (sdk topic)).2.status,
       (Agents.BaseAgent.execute cfg (sdk topic)).2.output,
       (Agents.BaseAgent.execute cfg (sdk topic)).2.execution_time⟩ :=
  rfl

/-- Claim C7: the Home page render is deterministic — the element tree it
returns is the same for any two render environments (no input, request
data or external state influences it). -/
theorem home_render_deterministic (a b : Landing.RenderCtx) :
    Landing.Home a = Landing.Home b :=
  rfl

/-- Claim C8: the column page under the dynamic route renders the same
Coming Soon tree for every slug value. -/
theorem column_page_ignores_slug (p q : ColumnRoute.RouteParams) :
    ColumnRoute.ColumnPage p = ColumnRoute.ColumnPage q :=
  rfl

/-- Claim C9: the style lookups in the rendering components are total —
the category style lookup always yields a defined style, falling back to
the Research style when the key is absent, and the member gradient lookup
always yields a non-empty gradient, falling back to the default gradient
when the key is absent. -/
theorem style_lookups_total :
    (∀ c : String, (Landing.columnStyle c).isSome = true ∧
      (Landing.jsIndex Landing.categoryStyles c = none →
        Landing.columnStyle c = Landing.jsIndex Landing.categoryStyles "Research")) ∧
    (∀ n : String, Landing.memberGradient n ≠ "" ∧
      (Landing.jsIndex Landing.memberColors n = none →
        Landing.memberGradient n = Landing.defaultGradient)) := by
  constructor
  · intro c
    constructor
    · unfold Landing.columnStyle
      cases h : Landing.jsIndex Landing.categoryStyles c with
      | some v => rfl
      | none => rfl
    · intro h
      unfold Landing.columnStyle
      rw [h]
      rfl
  · intro n
    constructor
    · unfold Landing.memberGradient
      cases h : Landing.jsIndex Landing.memberColors n with
      | some s =>
        show (if s = "" then Landing.defaultGradient else s) ≠ ""
        by_cases hs : s = ""
        · rw [if_pos hs]
          decide
        · rw [if_neg hs]
          exact hs
      | none =>
        show Landing.defaultGradient ≠ ""
        decide
    · intro h
      unfold Landing.memberGradient
      rw [h]
      rfl

/-- Witness for C9 at keys absent from both maps. -/
theorem style_lookups_total_witness :
    (Landing.columnStyle "Podcast").isSome = true ∧
    Landing.columnStyle "Podcast" = Landing.jsIndex Landing.categoryStyles "Research" ∧
    Landing.memberGradient "Alice" ≠ "" ∧
    Landing.memberGradient "Alice" = Landing.defaultGradient :=
  ⟨(style_lookups_total.1 "Podcast").1,
   (style_lookups_total.1 "Podcast").2 (by decide),
   (style_lookups_total.2 "Alice").1,
   (style_lookups_total.2 "Alice").2 (by decide)⟩

/-- Claim C10: every entry of the hardcoded team members list has a
non-empty name, so the avatar initial access name[0] is defined and the
rendered initial text is non-empty. -/
theorem team_member_initial_defined :
    ∀ m ∈ Landing.teamMembers,
      m.name ≠ "" ∧ (Landing.jsCharAt m.name 0).isSome = true ∧
      Landing.avatarInitialText m.name ≠ "" := by
  decide

/-- Witness for C10 at the first team member. -/
theorem team_member_initial_defined_witness :
    ("Jay" : String) ≠ "" ∧ (Landing.jsCharAt "Jay" 0).isSome = true ∧
    Landing.avatarInitialText "Jay" ≠ "" :=
  team_member_initial_defined
    ⟨"Jay", "Lead / Tech", some "Staff Engineer @ Silicon Valley"⟩ (by decide)

end HypeProof
